import Mathlib

/-!
Verification development for the snapshot rotation tool (rotate.py).

The program is embedded shallowly:

* Timestamps (Python `datetime.datetime`, timezone-naive) are records of
  integer fields; calendar arithmetic (`ymd2ord`, `ord2ymd`, ISO calendar)
  is transcribed from CPython's `Lib/datetime.py` helpers, which the
  program relies on for `timedelta` addition, `isocalendar` and ordering.
  Python's `//` and `%` always have positive divisors in this code, where
  they agree with Euclidean division `/` and `%` on `ℤ`; `Int.fdiv` is
  used where the transcription keeps Python's floor-division spelling.
* The interval functions (`interval_daily` .. `interval_custom`) become
  `bucketKey` over an explicit `Scheme` type; the returned Python tuples
  become lists of integers compared for equality only.
* String-processing helpers (`days_from_string`, `interval_from_string`,
  `format_time`, `datetime.fromisoformat`) work on `List Char`.
  Python's `int()` is modelled for ASCII input (surrounding whitespace,
  an optional sign, digits with single underscores between digits).
* The filesystem-facing parts (`find_snapshots`, `do_section`, the main
  loop) become pure functions from explicit directory listings /
  operation-failure oracles to the list of performed operations.
-/

namespace Rotate

/-! ### Calendar arithmetic (CPython `datetime` internals) -/

/-- CPython `_is_leap`. -/
def isLeap (y : ℤ) : Bool :=
  decide (y % 4 = 0 ∧ (y % 100 ≠ 0 ∨ y % 400 = 0))

/-- CPython `_DAYS_BEFORE_MONTH` table (cumulative days before month `m`
in a non-leap year). -/
def days_before_month_table (m : ℤ) : ℤ :=
  if m ≤ 1 then 0
  else if m = 2 then 31
  else if m = 3 then 59
  else if m = 4 then 90
  else if m = 5 then 120
  else if m = 6 then 151
  else if m = 7 then 181
  else if m = 8 then 212
  else if m = 9 then 243
  else if m = 10 then 273
  else if m = 11 then 304
  else 334

/-- CPython `_DAYS_IN_MONTH` table (non-leap year). -/
def days_in_month_table (m : ℤ) : ℤ :=
  if m = 2 then 28
  else if m = 4 ∨ m = 6 ∨ m = 9 ∨ m = 11 then 30
  else 31

/-- CPython `_ymd2ord`: proleptic-Gregorian ordinal of a date,
with 0001-01-01 being ordinal 1.  Divisors are positive and `y ≥ 1`
in every reachable call, so `/` (Euclidean) agrees with Python's
floor division. -/
def ymd2ord (y m d : ℤ) : ℤ :=
  (y - 1) * 365 + (y - 1) / 4 - (y - 1) / 100 + (y - 1) / 400
    + days_before_month_table m
    + (if 2 < m ∧ isLeap y = true then 1 else 0)
    + d

/-- CPython `_ord2ymd`: inverse of `ymd2ord`, transcribed branch by
branch (`146097` days per 400-year cycle, `36524` per 100, `1461` per 4). -/
def ord2ymd (o : ℤ) : ℤ × ℤ × ℤ :=
  let n := o - 1
  let n400 := n / 146097
  let r400 := n % 146097
  let n100 := r400 / 36524
  let r100 := r400 % 36524
  let n4 := r100 / 1461
  let r4 := r100 % 1461
  let n1 := r4 / 365
  let r1 := r4 % 365
  let year := n400 * 400 + 1 + n100 * 100 + n4 * 4 + n1
  if n1 = 4 ∨ n100 = 4 then (year - 1, 12, 31)
  else
    let leap : Bool := decide (n1 = 3 ∧ (n4 ≠ 24 ∨ n100 = 3))
    let month := (r1 + 50) / 32
    let preceding :=
      days_before_month_table month + (if 2 < month ∧ leap = true then 1 else 0)
    if r1 < preceding then
      let month2 := month - 1
      let preceding2 := preceding -
        (days_in_month_table month2 + (if month2 = 2 ∧ leap = true then 1 else 0))
      (year, month2, r1 - preceding2 + 1)
    else
      (year, month, r1 - preceding + 1)

/-- CPython `_isoweek1monday`: ordinal of the Monday starting ISO week 1
of `year` (THURSDAY = 3; Monday = weekday 0). -/
def isoweek1monday (year : ℤ) : ℤ :=
  let firstday := ymd2ord year 1 1
  let firstweekday := (firstday + 6) % 7
  let week1monday := firstday - firstweekday
  if 3 < firstweekday then week1monday + 7 else week1monday

/-- CPython `date.isocalendar`, restricted to the (ISO year, ISO week)
pair that `interval_weekly` consumes; the weekday component is dropped.
`Int.fdiv` is Python's floor `//`; the divisor 7 is positive. -/
def isocal_year_week (y m d : ℤ) : ℤ × ℤ :=
  let today := ymd2ord y m d
  let week := Int.fdiv (today - isoweek1monday y) 7
  if week < 0 then
    (y - 1, Int.fdiv (today - isoweek1monday (y - 1)) 7 + 1)
  else if 52 ≤ week ∧ isoweek1monday (y + 1) ≤ today then
    (y + 1, 1)
  else
    (y, week + 1)

/-! ### Timestamps -/

/-- Python `datetime.datetime` (timezone-naive): the fields the program
reads.  Ranges (`1 ≤ year ≤ 9999`, ...) are the library's invariant,
captured separately by `ValidDT`. -/
structure DateTime where
  year : ℤ
  month : ℤ
  day : ℤ
  hour : ℤ
  minute : ℤ
  second : ℤ
  microsecond : ℤ
deriving DecidableEq

/-- The `datetime` range invariant (`datetime.MINYEAR = 1`,
`datetime.MAXYEAR = 9999`). -/
def ValidDT (dt : DateTime) : Prop :=
  1 ≤ dt.year ∧ dt.year ≤ 9999 ∧
  1 ≤ dt.month ∧ dt.month ≤ 12 ∧
  1 ≤ dt.day ∧ dt.day ≤ days_in_month_table dt.month + (if dt.month = 2 ∧ isLeap dt.year = true then 1 else 0) ∧
  0 ≤ dt.hour ∧ dt.hour < 24 ∧
  0 ≤ dt.minute ∧ dt.minute < 60 ∧
  0 ≤ dt.second ∧ dt.second < 60 ∧
  0 ≤ dt.microsecond ∧ dt.microsecond < 1000000

instance (dt : DateTime) : Decidable (ValidDT dt) := by
  unfold ValidDT; infer_instance

/-- rotate.py `julian_day`: `(dt - datetime(1, 1, 1)).days + 1721426`.
Since `dt`'s time of day is nonnegative, the `timedelta`'s day count is
`ymd2ord dt - ymd2ord (1,1,1) = ymd2ord dt - 1`. -/
def julian_day (dt : DateTime) : ℤ :=
  ymd2ord dt.year dt.month dt.day - 1 + 1721426

/-- Python `dt + timedelta(days = k)`: shifts the date by `k` days and
keeps the time of day. -/
def addDays (dt : DateTime) (k : ℤ) : DateTime :=
  let p := ord2ymd (ymd2ord dt.year dt.month dt.day + k)
  ⟨p.1, p.2.1, p.2.2, dt.hour, dt.minute, dt.second, dt.microsecond⟩

/-- Scalar realizing Python's field-lexicographic `datetime` order on
valid timestamps (total microseconds since 0001-01-01 00:00). -/
def dtScalar (dt : DateTime) : ℤ :=
  (((ymd2ord dt.year dt.month dt.day * 24 + dt.hour) * 60 + dt.minute) * 60
    + dt.second) * 1000000 + dt.microsecond

/-- Python's `datetime` comparison (`snapshots.sort(key=lambda x: x.when)`
orders by this). -/
def dtLe (a b : DateTime) : Prop :=
  dtScalar a ≤ dtScalar b

instance : DecidableRel dtLe := fun a b => Int.decLe (dtScalar a) (dtScalar b)

/-- Equality of the calendar date (year, month, day fields). -/
def sameDate (a b : DateTime) : Prop :=
  a.year = b.year ∧ a.month = b.month ∧ a.day = b.day

instance (a b : DateTime) : Decidable (sameDate a b) := by
  unfold sameDate; infer_instance

/-! ### Interval schemes and bucket keys -/

/-- The interval schemes of rotate.py: the five entries of `INTERVALS`
plus `interval_custom days` (only constructed with `days > 0`). -/
inductive Scheme where
  | daily
  | weekly
  | monthly
  | biyearly
  | yearly
  | custom (days : ℤ)
deriving DecidableEq

/-- The interval functions `interval_daily` .. `interval_custom` of
rotate.py; the Python tuples/ints become lists of integers, compared for
equality only.  `interval_custom` is `julian_day(dt) // days` (floor). -/
def bucketKey : Scheme → DateTime → List ℤ
  | Scheme.daily, dt => [dt.year, dt.month, dt.day]
  | Scheme.weekly, dt =>
      [(isocal_year_week dt.year dt.month dt.day).1,
       (isocal_year_week dt.year dt.month dt.day).2]
  | Scheme.monthly, dt => [dt.year, dt.month]
  | Scheme.biyearly, dt => [dt.year, if dt.month ≤ 6 then 1 else 2]
  | Scheme.yearly, dt => [dt.year]
  | Scheme.custom n, dt => [Int.fdiv (julian_day dt) n]

example : ymd2ord 1 1 1 = 1 := by decide
example : ymd2ord 1970 1 1 = 719163 := by decide
example : ord2ymd 719163 = (1970, 1, 1) := by decide
example : ord2ymd (ymd2ord 2024 3 27 + 5) = (2024, 4, 1) := by decide
example : isocal_year_week 2024 12 31 = (2025, 1) := by decide
example : isocal_year_week 2025 1 1 = (2025, 1) := by decide
example : julian_day ⟨1, 1, 1, 0, 0, 0, 0⟩ = 1721426 := by decide

/-! ### String helpers: Python `int()`, `str.strip`, `days_from_string` -/

/-- ASCII whitespace, for the `str.strip()` / `int()` model. -/
def isSpaceChar (c : Char) : Bool :=
  c = ' ' || c = '\t' || c = '\n' || c = '\r' || c = '\x0b' || c = '\x0c'

/-- Python `str.strip()` (ASCII whitespace). -/
def stripWs (s : List Char) : List Char :=
  ((s.dropWhile isSpaceChar).reverse.dropWhile isSpaceChar).reverse

/-- Grammar of the characters after the first digit of a Python integer
literal: digits, with single underscores allowed between digits. -/
def digitsTail : List Char → Bool
  | [] => true
  | '_' :: rest =>
      match rest with
      | [] => false
      | c :: rest2 => c.isDigit && digitsTail rest2
  | c :: rest => c.isDigit && digitsTail rest

/-- A nonempty digit string, with single underscores between digits. -/
def digitsOk : List Char → Bool
  | [] => false
  | c :: rest => c.isDigit && digitsTail rest

/-- Decimal value of a digit/underscore string (underscores skipped). -/
def digitsVal (l : List Char) : ℕ :=
  l.foldl (fun acc c => if c = '_' then acc else acc * 10 + (c.toNat - 48)) 0

/-- Python `int(string)` on ASCII input: surrounding whitespace, an
optional single sign, then digits with single underscores between
digits; `none` models the `ValueError`. -/
def pyInt (s : List Char) : Option ℤ :=
  match stripWs s with
  | '+' :: rest => if digitsOk rest then some (digitsVal rest : ℤ) else none
  | '-' :: rest => if digitsOk rest then some (-(digitsVal rest : ℤ)) else none
  | rest => if digitsOk rest then some (digitsVal rest : ℤ) else none

/-- rotate.py `days_from_string`: strip, require a nonempty string whose
last character is `d`, then `int()` the rest (`None` on failure). -/
def days_from_string (s : List Char) : Option ℤ :=
  let t := stripWs s
  if t.getLast? = some 'd' then pyInt t.dropLast else none

/-! ### Scheme resolution (`interval_from_string`) and methods -/

/-- rotate.py `interval_from_string`: strip, look the string up in the
`INTERVALS` dict, else accept `days_from_string` results `> 0`. -/
def interval_from_string (s : List Char) : Option Scheme :=
  let t := stripWs s
  if t = "daily".toList then some Scheme.daily
  else if t = "weekly".toList then some Scheme.weekly
  else if t = "monthly".toList then some Scheme.monthly
  else if t = "biyearly".toList then some Scheme.biyearly
  else if t = "yearly".toList then some Scheme.yearly
  else
    match days_from_string t with
    | some n => if 0 < n then some (Scheme.custom n) else none
    | none => none

/-- The three snapshot methods of rotate.py (`METHODS`); their external
commands are outside the embedding. -/
inductive MethodKind where
  | copy
  | hardlink
  | btrfs
deriving DecidableEq

/-- rotate.py `method_from_string` (exact, case-sensitive match). -/
def method_from_string (s : List Char) : Option MethodKind :=
  if s = "copy".toList then some MethodKind.copy
  else if s = "hardlink".toList then some MethodKind.hardlink
  else if s = "btrfs".toList then some MethodKind.btrfs
  else none

/-! ### Timestamp serialization and parsing -/

/-- Decimal digit character of `n % 10`. -/
def dChar (n : ℤ) : Char :=
  Char.ofNat (48 + (n % 10).toNat)

/-- rotate.py `format_time`:
`dt.isoformat(sep=" ", timespec="minutes")`, i.e. the 16 characters
`YYYY-MM-DD HH:MM` (zero-padded fields; seconds and microseconds are
truncated away). -/
def format_time (dt : DateTime) : List Char :=
  dChar (dt.year / 1000) :: dChar (dt.year / 100) :: dChar (dt.year / 10) :: dChar dt.year ::
  '-' :: dChar (dt.month / 10) :: dChar dt.month ::
  '-' :: dChar (dt.day / 10) :: dChar dt.day ::
  ' ' :: dChar (dt.hour / 10) :: dChar dt.hour ::
  ':' :: dChar (dt.minute / 10) :: dChar dt.minute :: []

/-- Numeric value of a digit character. -/
def dVal (c : Char) : Option ℤ :=
  if c.isDigit then some ((c.toNat : ℤ) - 48) else none

/-- Two-digit field of an ISO string. -/
def parse2 (a b : Char) : Option ℤ :=
  match dVal a, dVal b with
  | some x, some y => some (x * 10 + y)
  | _, _ => none

/-- Construct a `datetime` from parsed components, validating the
library's field ranges (`ValueError` on violation, i.e. `none`). -/
def mkValidDT (y mo d h mi s us : ℤ) : Option DateTime :=
  if ValidDT ⟨y, mo, d, h, mi, s, us⟩ then some ⟨y, mo, d, h, mi, s, us⟩ else none

/-- Time-of-day part of `datetime.fromisoformat` (CPython 3.7-3.10
`_parse_isoformat_time`, naive timestamps: `HH`, `HH:MM`, `HH:MM:SS`,
`HH:MM:SS.fff` or `HH:MM:SS.ffffff`; timezone offsets are not used by
valid snapshot names and are not modelled). -/
def parseTimePart : List Char → Option (ℤ × ℤ × ℤ × ℤ)
  | [h1, h2] =>
      match parse2 h1 h2 with
      | some h => some (h, 0, 0, 0)
      | none => none
  | [h1, h2, ':', m1, m2] =>
      match parse2 h1 h2, parse2 m1 m2 with
      | some h, some mi => some (h, mi, 0, 0)
      | _, _ => none
  | [h1, h2, ':', m1, m2, ':', s1, s2] =>
      match parse2 h1 h2, parse2 m1 m2, parse2 s1 s2 with
      | some h, some mi, some se => some (h, mi, se, 0)
      | _, _, _ => none
  | [h1, h2, ':', m1, m2, ':', s1, s2, '.', f1, f2, f3] =>
      match parse2 h1 h2, parse2 m1 m2, parse2 s1 s2, dVal f1, dVal f2, dVal f3 with
      | some h, some mi, some se, some a, some b, some c =>
          some (h, mi, se, ((a * 10 + b) * 10 + c) * 1000)
      | _, _, _, _, _, _ => none
  | [h1, h2, ':', m1, m2, ':', s1, s2, '.', f1, f2, f3, f4, f5, f6] =>
      match parse2 h1 h2, parse2 m1 m2, parse2 s1 s2,
            dVal f1, dVal f2, dVal f3, dVal f4, dVal f5, dVal f6 with
      | some h, some mi, some se, some a, some b, some c, some d, some e, some f =>
          some (h, mi, se, ((((a * 10 + b) * 10 + c) * 10 + d) * 10 + e) * 10 + f)
      | _, _, _, _, _, _, _, _, _ => none
  | _ => none

/-- Optional separator plus time: an empty tail means midnight
(date-only form); otherwise one arbitrary separator character precedes
the time of day. -/
def parseAfterDate : List Char → Option (ℤ × ℤ × ℤ × ℤ)
  | [] => some (0, 0, 0, 0)
  | _ :: t => parseTimePart t

/-- `datetime.fromisoformat` on naive timestamps: a strict `YYYY-MM-DD`
date, optionally followed by a separator and a time of day; the result
is range-validated. -/
def fromisoformat (s : List Char) : Option DateTime :=
  match s with
  | y1 :: y2 :: y3 :: y4 :: '-' :: a1 :: a2 :: '-' :: b1 :: b2 :: rest =>
      match parse2 y1 y2, parse2 y3 y4, parse2 a1 a2, parse2 b1 b2 with
      | some yh, some yl, some mo, some dd =>
          match parseAfterDate rest with
          | some (h, mi, se, us) => mkValidDT (yh * 100 + yl) mo dd h mi se us
          | none => none
      | _, _, _, _ => none
  | _ => none

example : pyInt ("30".toList) = some 30 := by decide
example : pyInt (" +3_0 ".toList) = some 30 := by decide
example : pyInt ("3__0".toList) = none := by decide
example : days_from_string ("30 d".toList) = some 30 := by decide
example : days_from_string ("-5d".toList) = some (-5) := by decide
example : interval_from_string ("monthly".toList) = some Scheme.monthly := by decide
example : interval_from_string ("0d".toList) = none := by decide
example : interval_from_string ("30 d".toList) = some (Scheme.custom 30) := by decide
example : format_time ⟨2024, 3, 7, 14, 30, 59, 123⟩ = "2024-03-07 14:30".toList := by decide
example : fromisoformat ("2024-03-07 14:30".toList) = some ⟨2024, 3, 7, 14, 30, 0, 0⟩ := by decide
example : fromisoformat ("2024-01-01".toList) = some ⟨2024, 1, 1, 0, 0, 0, 0⟩ := by decide
example : fromisoformat ("2024-01-01T00:00:05.123456".toList) = some ⟨2024, 1, 1, 0, 0, 5, 123456⟩ := by decide
example : fromisoformat ("2024-13-01".toList) = none := by decide
example : fromisoformat ("junk".toList) = none := by decide

/-! ### Snapshot catalog (`find_snapshots`) -/

/-- rotate.py `Snapshot`: the directory entry's name (standing for its
path) and the timestamp parsed from that name. -/
structure Snapshot where
  path : List Char
  when : DateTime
deriving DecidableEq

/-- Comparison used by `snapshots.sort(key=lambda x: x.when)`. -/
def snapLe (a b : Snapshot) : Prop :=
  dtLe a.when b.when

instance : DecidableRel snapLe := fun a b => Int.decLe (dtScalar a.when) (dtScalar b.when)

instance : IsTotal Snapshot snapLe :=
  ⟨fun a b => Int.le_total (dtScalar a.when) (dtScalar b.when)⟩

instance : IsTrans Snapshot snapLe :=
  ⟨fun _ _ _ hab hbc => Int.le_trans hab hbc⟩

/-- One child entry of the section directory, as `Path.iterdir` yields
it: its name and whether it is a directory. -/
structure DirEntry where
  name : List Char
  isDir : Bool
deriving DecidableEq

/-- Body of the `find_snapshots` loop for one entry: non-directories and
names that do not parse as a datetime are skipped (with a diagnostic,
which the embedding drops). -/
def parse_entry (e : DirEntry) : Option Snapshot :=
  if e.isDir then (fromisoformat e.name).map (fun dt => ⟨e.name, dt⟩) else none

/-- rotate.py `find_snapshots`: empty if the directory does not exist;
otherwise parse the entries and sort ascending by timestamp (Python's
sort is stable; so is insertion sort with a `≤`-style relation). -/
def find_snapshots (dirExists : Bool) (entries : List DirEntry) : List Snapshot :=
  if dirExists then List.insertionSort snapLe (entries.filterMap parse_entry)
  else []

/-! ### Section options (`read_section_options`) -/

/-- rotate.py `SectionOptions` after validation. -/
structure SectionOptions where
  method : MethodKind
  interval : Scheme
  offset : ℤ
  amount : ℤ
deriving DecidableEq

/-- The four option strings of one config section as `configparser`
hands them over (`none` = key absent after DEFAULT-cascading). -/
structure RawSection where
  method : Option (List Char)
  interval : Option (List Char)
  offset : Option (List Char)
  amount : Option (List Char)

/-- The one Python exception the embedding distinguishes. -/
inductive PyExc where
  | valueError
deriving DecidableEq

/-- `configparser` `section.getint(key, fallback=7)`: the fallback is
used only when the key is absent; a present but non-integer value makes
`int()` raise `ValueError`, which `getint` does not catch. -/
def getint (raw : Option (List Char)) (fallback : ℤ) : Except PyExc ℤ :=
  match raw with
  | none => Except.ok fallback
  | some s =>
      match pyInt s with
      | some n => Except.ok n
      | none => Except.error PyExc.valueError

/-- rotate.py `read_section_options`: resolve each key against its
fallback (`copy`, `daily`, `0d`, `7`); any invalid value yields `none`
for that option and `Except.ok none` (section skipped) overall — except
that a non-integer `amount` raises `ValueError` out of the function
(`Except.error`). -/
def read_section_options (raw : RawSection) : Except PyExc (Option SectionOptions) :=
  let m := method_from_string (raw.method.getD ("copy".toList))
  let i := interval_from_string (raw.interval.getD ("daily".toList))
  let o := days_from_string (raw.offset.getD ("0d".toList))
  match getint raw.amount 7 with
  | Except.error e => Except.error e
  | Except.ok a =>
      let am : Option ℤ := if a ≤ 0 then none else some a
      match m, i, o, am with
      | some m, some i, some o, some a => Except.ok (some ⟨m, i, o, a⟩)
      | _, _, _, _ => Except.ok none

/-! ### The retention decision (`do_section`) -/

/-- Coverage check of `do_section`: is `now`'s (offset) bucket already
covered by some existing snapshot's (offset) bucket?  The Python
`for`/`break` over the list equals an existence check. -/
def coverage (sch : Scheme) (off : ℤ) (now : DateTime) (snaps : List Snapshot) : Bool :=
  snaps.any fun s => bucketKey sch (addDays s.when off) == bucketKey sch (addDays now off)

/-- Removal loop of `do_section`: `while len(snapshots) > amount:
snapshots.pop(0)`, returning the removed prefix.  (For `amount < 0`
Python would `pop` an empty list; `read_section_options` guarantees
`amount ≥ 1` so that branch is unreachable, and the model returns the
whole list there.) -/
def prune_loop (amt : ℤ) : List Snapshot → List Snapshot
  | [] => []
  | s :: rest =>
      if amt < (rest.length : ℤ) + 1 then s :: prune_loop amt rest else []

/-- The outcome of one `do_section` call on the happy path: the target
name of the created snapshot (if any) and the snapshots removed, in
order. -/
structure SectionPlan where
  creates : Option (List Char)
  removes : List Snapshot
deriving DecidableEq

/-- rotate.py `do_section`, operations recorded instead of executed:
if no existing snapshot covers the current bucket, create one named
`format_time(options.time)` (the un-offset now) and decrement the
allowed amount by one; then prune oldest-first. -/
def do_section (sch : Scheme) (off amt : ℤ) (now : DateTime)
    (snaps : List Snapshot) : SectionPlan :=
  if coverage sch off now snaps then
    ⟨none, prune_loop amt snaps⟩
  else
    ⟨some (format_time now), prune_loop (amt - 1) snaps⟩

/-! ### Failure propagation (`Method`, `OperationFailedException`, `main`) -/

/-- One section's inputs for the failure model: the validated options'
relevant fields, the catalog, and oracles saying which physical
operations fail (`createFails`: the target already exists or the parent
directory cannot be created; `removeFails`: the external command fails). -/
structure SectionInput where
  scheme : Scheme
  off : ℤ
  amount : ℤ
  snaps : List Snapshot
  createFails : Bool
  removeFails : List Char → Bool

/-- A physical snapshot operation that completed successfully. -/
inductive Action where
  | create (target : List Char)
  | remove (path : List Char)
deriving DecidableEq

/-- Removals of one section run: stop at the first failing
`remove_snapshot` (its `OperationFailedException` propagates); returns
the successful removals and whether the exception was raised. -/
def remove_loop (fails : List Char → Bool) : List Snapshot → List Action × Bool
  | [] => ([], false)
  | s :: rest =>
      if fails s.path then ([], true)
      else
        let r := remove_loop fails rest
        (Action.remove s.path :: r.1, r.2)

/-- rotate.py `do_section` with failures: a failing `create_snapshot`
raises before pruning starts; a failing removal stops the loop.  The
Boolean is `true` iff an `OperationFailedException` escaped. -/
def do_section_run (now : DateTime) (sec : SectionInput) : List Action × Bool :=
  if coverage sec.scheme sec.off now sec.snaps then
    remove_loop sec.removeFails (prune_loop sec.amount sec.snaps)
  else if sec.createFails then ([], true)
  else
    let r := remove_loop sec.removeFails (prune_loop (sec.amount - 1) sec.snaps)
    (Action.create (format_time now) :: r.1, r.2)

/-- The `main` loop over sections: nothing catches
`OperationFailedException` inside `main`, so the first failing section
ends the run; later sections are not processed. -/
def run_sections (now : DateTime) : List SectionInput → List Action × Bool
  | [] => ([], false)
  | sec :: rest =>
      let r := do_section_run now sec
      if r.2 then (r.1, true)
      else
        let r2 := run_sections now rest
        (r.1 ++ r2.1, r2.2)

/-- Process exit status: the `__main__` handler catches the propagated
`OperationFailedException` and exits 1; otherwise 0. -/
def exit_code (now : DateTime) (secs : List SectionInput) : ℤ :=
  if (run_sections now secs).2 then 1 else 0

/-- Truncation performed by `format_time`'s minute precision: the
timestamp a snapshot name round-trips to. -/
def truncMin (dt : DateTime) : DateTime :=
  ⟨dt.year, dt.month, dt.day, dt.hour, dt.minute, 0, 0⟩

/-- The acceptance set asserted by the specification for
`interval_from_string`, read literally: one of the five names exactly as
spelled, or a nonempty decimal digit string of positive value followed
by `d` and nothing else. -/
def claimedSchemeForm (s : List Char) : Bool :=
  decide (s = "daily".toList) || decide (s = "weekly".toList) ||
  decide (s = "monthly".toList) || decide (s = "biyearly".toList) ||
  decide (s = "yearly".toList) ||
  (if s.getLast? = some 'd' then
    !s.dropLast.isEmpty && s.dropLast.all (fun c => c.isDigit) &&
      decide (0 < digitsVal s.dropLast)
  else false)

/-- The acceptance set the code actually has: after stripping, one of
the five names, or a string with trailing `d` whose remainder Python's
`int()` parses to a positive value (so also e.g. a leading sign,
whitespace before the `d`, or underscores between digits). -/
def amendedAccept (s : List Char) : Bool :=
  let t := stripWs s
  decide (t = "daily".toList) || decide (t = "weekly".toList) ||
  decide (t = "monthly".toList) || decide (t = "biyearly".toList) ||
  decide (t = "yearly".toList) ||
  (if t.getLast? = some 'd' then
    match pyInt t.dropLast with
    | some n => decide (0 < n)
    | none => false
  else false)

/-- The Julian day number as the specification words it: the day count
of `date − 0001-01-01` plus the epoch constant 1721426. -/
def specJulianDay (dt : DateTime) : ℤ :=
  (ymd2ord dt.year dt.month dt.day - ymd2ord 1 1 1) + 1721426

/-! ### Helper lemmas -/

/-- Every interval function reads only the calendar date of its
argument, never the time of day. -/
lemma bucketKey_congr (sch : Scheme) {a b : DateTime} (h : sameDate a b) :
    bucketKey sch a = bucketKey sch b := by
  obtain ⟨h1, h2, h3⟩ := h
  cases sch <;> simp [bucketKey, julian_day, h1, h2, h3]

/-- Shifting two same-date timestamps by the same number of days keeps
them on the same date. -/
lemma sameDate_addDays {a b : DateTime} (h : sameDate a b) (k : ℤ) :
    sameDate (addDays a k) (addDays b k) := by
  obtain ⟨h1, h2, h3⟩ := h
  simp [addDays, sameDate, h1, h2, h3]

/-- Snapshot lists with pointwise equal dates give the same answers to
the per-snapshot key comparison. -/
lemma any_key_congr (sch : Scheme) (off : ℤ) (K : List ℤ)
    {snaps snaps' : List Snapshot}
    (hs : List.Forall₂ (fun s s' => sameDate s.when s'.when) snaps snaps') :
    (snaps.any fun s => bucketKey sch (addDays s.when off) == K) =
      (snaps'.any fun s => bucketKey sch (addDays s.when off) == K) := by
  induction hs with
  | nil => rfl
  | cons hhead htail ih =>
      simp only [List.any_cons]
      rw [bucketKey_congr sch (sameDate_addDays hhead off), ih]

/-- The coverage check only looks at calendar dates. -/
lemma coverage_congr (sch : Scheme) (off : ℤ) {now now' : DateTime}
    {snaps snaps' : List Snapshot}
    (hn : sameDate now now')
    (hs : List.Forall₂ (fun s s' => sameDate s.when s'.when) snaps snaps') :
    coverage sch off now snaps = coverage sch off now' snaps' := by
  unfold coverage
  rw [bucketKey_congr sch (sameDate_addDays hn off)]
  exact any_key_congr sch off (bucketKey sch (addDays now' off)) hs

/-- The removal loop pops exactly the prefix that exceeds the allowed
amount. -/
lemma prune_loop_eq_take (amt : ℤ) (l : List Snapshot) :
    prune_loop amt l = l.take ((l.length : ℤ) - amt).toNat := by
  induction l with
  | nil => simp [prune_loop]
  | cons s rest ih =>
      simp only [prune_loop, List.length_cons]
      push_cast
      by_cases h : amt < (rest.length : ℤ) + 1
      · rw [if_pos h, ih]
        have h2 : (((rest.length : ℤ) + 1) - amt).toNat = ((rest.length : ℤ) - amt).toNat + 1 := by
          omega
        rw [h2, List.take_succ_cons]
      · rw [if_neg h]
        have h2 : (((rest.length : ℤ) + 1) - amt).toNat = 0 := by omega
        rw [h2, List.take_zero]

/-- The `for`/`break` coverage loop succeeds iff some existing snapshot
has the same (offset) bucket key as (offset) `now`. -/
lemma coverage_iff (sch : Scheme) (off : ℤ) (now : DateTime) (snaps : List Snapshot) :
    coverage sch off now snaps = true ↔
      ∃ s ∈ snaps, bucketKey sch (addDays s.when off) = bucketKey sch (addDays now off) := by
  simp [coverage, List.any_eq_true]

/-- Digit characters evaluate back to their digit. -/
lemma dVal_ofNat (j : ℕ) (h : j < 10) : dVal (Char.ofNat (48 + j)) = some (j : ℤ) := by
  interval_cases j <;> decide

/-- `dVal` inverts `dChar`. -/
lemma dVal_dChar (n : ℤ) : dVal (dChar n) = some (n % 10) := by
  have h0 : 0 ≤ n % 10 := Int.emod_nonneg n (by decide)
  have h1 : n % 10 < 10 := Int.emod_lt_of_pos n (by decide)
  have h2 : (n % 10).toNat < 10 := by omega
  have h3 : n % 10 = ((n % 10).toNat : ℤ) := by omega
  rw [dChar, dVal_ofNat _ h2]
  exact congrArg some h3.symm

/-- `parse2` inverts a two-digit rendering. -/
lemma parse2_dChar (hi lo : ℤ) :
    parse2 (dChar hi) (dChar lo) = some (hi % 10 * 10 + lo % 10) := by
  simp [parse2, dVal_dChar]

/-- Round trip at the heart of idempotence: parsing a snapshot name
written by `format_time` yields the timestamp truncated to minutes. -/
lemma fromisoformat_format_time {dt : DateTime} (h : ValidDT dt) :
    fromisoformat (format_time dt) = some (truncMin dt) := by
  obtain ⟨hy1, hy2, hm1, hm2, hd1, hd2, hh1, hh2, hmi1, hmi2, hs1, hs2, hus1, hus2⟩ := h
  simp only [format_time, fromisoformat, parse2_dChar, parseAfterDate, parseTimePart]
  have hy : (dt.year / 1000 % 10 * 10 + dt.year / 100 % 10) * 100 +
      (dt.year / 10 % 10 * 10 + dt.year % 10) = dt.year := by omega
  have hmo : dt.month / 10 % 10 * 10 + dt.month % 10 = dt.month := by omega
  have hd : dt.day / 10 % 10 * 10 + dt.day % 10 = dt.day := by
    have htab : days_in_month_table dt.month ≤ 31 := by
      unfold days_in_month_table
      split_ifs <;> omega
    have hb : dt.day < 100 := by
      split at hd2 <;> omega
    omega
  have hh : dt.hour / 10 % 10 * 10 + dt.hour % 10 = dt.hour := by omega
  have hmi : dt.minute / 10 % 10 * 10 + dt.minute % 10 = dt.minute := by omega
  rw [hy, hmo, hd, hh, hmi]
  have hv : ValidDT ⟨dt.year, dt.month, dt.day, dt.hour, dt.minute, 0, 0⟩ := by
    exact ⟨hy1, hy2, hm1, hm2, hd1, hd2, hh1, hh2, hmi1, hmi2,
      by norm_num, by norm_num, by norm_num, by norm_num⟩
  rw [mkValidDT, if_pos hv]
  rfl

/-- Plan of `do_section` spelt with an `if`, for case analysis. -/
lemma do_section_creates (sch : Scheme) (off amt : ℤ) (now : DateTime)
    (snaps : List Snapshot) :
    (do_section sch off amt now snaps).creates =
      if coverage sch off now snaps then none else some (format_time now) := by
  unfold do_section
  by_cases h : coverage sch off now snaps = true
  · rw [if_pos h, if_pos h]
  · rw [if_neg h, if_neg h]

/-- Removal list of `do_section` as a prefix of the catalog. -/
lemma do_section_removes (sch : Scheme) (off amt : ℤ) (now : DateTime)
    (snaps : List Snapshot) :
    (do_section sch off amt now snaps).removes =
      if coverage sch off now snaps then prune_loop amt snaps
      else prune_loop (amt - 1) snaps := by
  unfold do_section
  by_cases h : coverage sch off now snaps = true
  · rw [if_pos h, if_pos h]
  · rw [if_neg h, if_neg h]

/-! ### The claims -/

/-- C1.  Coverage decision: for every section, a new snapshot is created
if and only if no existing snapshot `s` satisfies
`bucket_key(scheme, s.when + offset) = bucket_key(scheme, now + offset)`;
the offset is added both to the current time and to every existing
snapshot's timestamp before bucketing, and a created snapshot is named
with the minute-precision serialization of the un-offset `now` (never of
`effective_now`).  With scheme `monthly`, offset 5 days,
`now = 2024-03-27 10:00` and an existing snapshot at `2024-03-30 00:00`,
no snapshot is created. -/
theorem C1_coverage_decision :
    (∀ (sch : Scheme) (off amt : ℤ) (now : DateTime) (snaps : List Snapshot),
      ((do_section sch off amt now snaps).creates.isSome ↔
        ¬ ∃ s ∈ snaps,
          bucketKey sch (addDays s.when off) = bucketKey sch (addDays now off))
      ∧ ((do_section sch off amt now snaps).creates = none ∨
         (do_section sch off amt now snaps).creates = some (format_time now)))
    ∧ (do_section Scheme.monthly 5 3 ⟨2024, 3, 27, 10, 0, 0, 0⟩
        [⟨"2024-03-30 00:00".toList, ⟨2024, 3, 30, 0, 0, 0, 0⟩⟩]).creates = none := by
  constructor
  · intro sch off amt now snaps
    constructor
    · rw [do_section_creates]
      by_cases h : coverage sch off now snaps = true
      · rw [if_pos h]
        simp only [Option.isSome_none, Bool.false_eq_true, false_iff, not_not]
        exact (coverage_iff sch off now snaps).mp h
      · rw [if_neg h]
        simp only [Option.isSome_some, true_iff]
        intro hex
        exact h ((coverage_iff sch off now snaps).mpr hex)
    · rw [do_section_creates]
      by_cases h : coverage sch off now snaps = true
      · rw [if_pos h]; exact Or.inl rfl
      · rw [if_neg h]; exact Or.inr rfl
  · decide

/-- C2.  Pruning: with `e` existing snapshots (listed ascending), `c = 1`
iff a snapshot was created this run, and a positive configured `amount`,
the removed snapshots are exactly the first `max 0 (e + c - amount)`
entries of the catalog; every removed snapshot pre-existed this run (the
just-created one is never removed), and when the catalog is sorted
ascending every removed snapshot is no newer than every retained one. -/
theorem C2_pruning :
    ∀ (sch : Scheme) (off amt : ℤ) (now : DateTime) (snaps : List Snapshot),
    1 ≤ amt →
    (do_section sch off amt now snaps).removes =
        snaps.take (((snaps.length : ℤ) +
          (if (do_section sch off amt now snaps).creates.isSome then 1 else 0)
          - amt).toNat)
    ∧ ((do_section sch off amt now snaps).removes.length : ℤ) =
        max 0 ((snaps.length : ℤ) +
          (if (do_section sch off amt now snaps).creates.isSome then 1 else 0)
          - amt)
    ∧ (∀ s ∈ (do_section sch off amt now snaps).removes, s ∈ snaps)
    ∧ (List.Pairwise snapLe snaps →
        ∀ x ∈ (do_section sch off amt now snaps).removes,
        ∀ y ∈ snaps.drop (((snaps.length : ℤ) +
          (if (do_section sch off amt now snaps).creates.isSome then 1 else 0)
          - amt).toNat),
        snapLe x y) := by
  intro sch off amt now snaps hamt
  have hkey : (do_section sch off amt now snaps).removes =
      snaps.take (((snaps.length : ℤ) +
        (if (do_section sch off amt now snaps).creates.isSome then 1 else 0)
        - amt).toNat) := by
    rw [do_section_removes, do_section_creates]
    by_cases h : coverage sch off now snaps = true
    · rw [if_pos h, if_pos h, prune_loop_eq_take]
      simp only [Option.isSome_none, Bool.false_eq_true, if_false]
      norm_num
    · rw [if_neg h, if_neg h, prune_loop_eq_take]
      simp only [Option.isSome_some, if_true]
      congr 1
      omega
  refine ⟨hkey, ?_, ?_, ?_⟩
  · rw [hkey]
    simp only [List.length_take]
    have hc : (if (do_section sch off amt now snaps).creates.isSome then (1 : ℤ) else 0) = 1 ∨
        (if (do_section sch off amt now snaps).creates.isSome then (1 : ℤ) else 0) = 0 := by
      by_cases h : (do_section sch off amt now snaps).creates.isSome = true
      · rw [if_pos h]; exact Or.inl rfl
      · rw [if_neg h]; exact Or.inr rfl
    rcases hc with h | h <;> rw [h] <;> omega
  · intro s hs
    rw [hkey] at hs
    exact List.take_subset _ _ hs
  · intro hsort x hx y hy
    rw [hkey] at hx
    have hconcat : List.Pairwise snapLe
        (snaps.take (((snaps.length : ℤ) +
            (if (do_section sch off amt now snaps).creates.isSome then 1 else 0)
            - amt).toNat) ++
          snaps.drop (((snaps.length : ℤ) +
            (if (do_section sch off amt now snaps).creates.isSome then 1 else 0)
            - amt).toNat)) := by
      rw [List.take_append_drop]
      exact hsort
    exact (List.pairwise_append.mp hconcat).2.2 x hx y hy

/-- Witness for C2 at the claim's own example: `amount = 3`, five
existing snapshots, no creation this run; exactly the two oldest are
removed. -/
theorem C2_pruning_witness :
    (1 : ℤ) ≤ 3 ∧
    (do_section Scheme.daily 0 3 ⟨2024, 1, 5, 0, 0, 0, 0⟩
      [⟨"t1".toList, ⟨2024, 1, 1, 0, 0, 0, 0⟩⟩,
       ⟨"t2".toList, ⟨2024, 1, 2, 0, 0, 0, 0⟩⟩,
       ⟨"t3".toList, ⟨2024, 1, 3, 0, 0, 0, 0⟩⟩,
       ⟨"t4".toList, ⟨2024, 1, 4, 0, 0, 0, 0⟩⟩,
       ⟨"t5".toList, ⟨2024, 1, 5, 0, 0, 0, 0⟩⟩]).removes =
      [⟨"t1".toList, ⟨2024, 1, 1, 0, 0, 0, 0⟩⟩,
       ⟨"t2".toList, ⟨2024, 1, 2, 0, 0, 0, 0⟩⟩] := by
  constructor
  · decide
  · have h := (C2_pruning Scheme.daily 0 3 ⟨2024, 1, 5, 0, 0, 0, 0⟩
      [⟨"t1".toList, ⟨2024, 1, 1, 0, 0, 0, 0⟩⟩,
       ⟨"t2".toList, ⟨2024, 1, 2, 0, 0, 0, 0⟩⟩,
       ⟨"t3".toList, ⟨2024, 1, 3, 0, 0, 0, 0⟩⟩,
       ⟨"t4".toList, ⟨2024, 1, 4, 0, 0, 0, 0⟩⟩,
       ⟨"t5".toList, ⟨2024, 1, 5, 0, 0, 0, 0⟩⟩] (by decide)).1
    rw [h]
    decide

/-- C3, counterexample.  The claim asserts that after a failed snapshot
creation the same section's pruning still runs and later sections are
still processed.  In the code `OperationFailedException` is caught only
at top level: with a first section that needs a snapshot but whose
creation fails (two stale snapshots present, `amount = 1`, so pruning
would have removed at least one) and a second section that would create
a snapshot, the run performs no action at all — no pruning for section
one (which alone would remove two snapshots), no processing of section
two (which alone would create) — and exits 1 immediately. -/
theorem C3_counterexample :
    run_sections ⟨2024, 1, 5, 0, 0, 0, 0⟩
      [⟨Scheme.daily, 0, 1,
        [⟨"2024-01-01 00:00".toList, ⟨2024, 1, 1, 0, 0, 0, 0⟩⟩,
         ⟨"2024-01-02 00:00".toList, ⟨2024, 1, 2, 0, 0, 0, 0⟩⟩],
        true, fun _ => false⟩,
       ⟨Scheme.daily, 0, 7, [], false, fun _ => false⟩] = ([], true)
    ∧ run_sections ⟨2024, 1, 5, 0, 0, 0, 0⟩
      [⟨Scheme.daily, 0, 1,
        [⟨"2024-01-01 00:00".toList, ⟨2024, 1, 1, 0, 0, 0, 0⟩⟩,
         ⟨"2024-01-02 00:00".toList, ⟨2024, 1, 2, 0, 0, 0, 0⟩⟩],
        false, fun _ => false⟩] =
      ([Action.create ("2024-01-05 00:00".toList),
        Action.remove ("2024-01-01 00:00".toList),
        Action.remove ("2024-01-02 00:00".toList)], false)
    ∧ run_sections ⟨2024, 1, 5, 0, 0, 0, 0⟩
      [⟨Scheme.daily, 0, 7, [], false, fun _ => false⟩] =
      ([Action.create ("2024-01-05 00:00".toList)], false)
    ∧ exit_code ⟨2024, 1, 5, 0, 0, 0, 0⟩
      [⟨Scheme.daily, 0, 1,
        [⟨"2024-01-01 00:00".toList, ⟨2024, 1, 1, 0, 0, 0, 0⟩⟩,
         ⟨"2024-01-02 00:00".toList, ⟨2024, 1, 2, 0, 0, 0, 0⟩⟩],
        true, fun _ => false⟩,
       ⟨Scheme.daily, 0, 7, [], false, fun _ => false⟩] = 1 := by
  refine ⟨rfl, rfl, rfl, rfl⟩

/-- C3, amended.  If an operation of some section fails, the raised
`OperationFailedException` ends the run at once: that section performs
no further operations (a failed creation skips its pruning entirely),
the following sections are not processed, and the exit status is 1.
When no operation fails the exit status is 0. -/
theorem C3_amended :
    (∀ (now : DateTime) (sec : SectionInput) (rest : List SectionInput),
      (do_section_run now sec).2 = true →
      run_sections now (sec :: rest) = ((do_section_run now sec).1, true)
      ∧ exit_code now (sec :: rest) = 1)
    ∧ (∀ (now : DateTime) (sec : SectionInput),
        coverage sec.scheme sec.off now sec.snaps = false →
        sec.createFails = true →
        do_section_run now sec = ([], true))
    ∧ (∀ (now : DateTime) (secs : List SectionInput),
        (run_sections now secs).2 = false → exit_code now secs = 0) := by
  refine ⟨?_, ?_, ?_⟩
  · intro now sec rest h
    have hrun : run_sections now (sec :: rest) = ((do_section_run now sec).1, true) := by
      unfold run_sections
      simp only [h, if_true]
    refine ⟨hrun, ?_⟩
    unfold exit_code
    rw [hrun]
    rfl
  · intro now sec hcov hfail
    unfold do_section_run
    rw [if_neg (by rw [hcov]; exact Bool.false_ne_true), if_pos hfail]
  · intro now secs h
    unfold exit_code
    rw [h]
    rfl

/-- Witness for C3's amended statement at a concrete failing run. -/
theorem C3_amended_witness :
    (do_section_run ⟨2024, 1, 5, 0, 0, 0, 0⟩
      ⟨Scheme.daily, 0, 1,
        [⟨"2024-01-01 00:00".toList, ⟨2024, 1, 1, 0, 0, 0, 0⟩⟩],
        true, fun _ => false⟩).2 = true
    ∧ run_sections ⟨2024, 1, 5, 0, 0, 0, 0⟩
        [⟨Scheme.daily, 0, 1,
          [⟨"2024-01-01 00:00".toList, ⟨2024, 1, 1, 0, 0, 0, 0⟩⟩],
          true, fun _ => false⟩,
         ⟨Scheme.daily, 0, 7, [], false, fun _ => false⟩] =
        ((do_section_run ⟨2024, 1, 5, 0, 0, 0, 0⟩
          ⟨Scheme.daily, 0, 1,
            [⟨"2024-01-01 00:00".toList, ⟨2024, 1, 1, 0, 0, 0, 0⟩⟩],
            true, fun _ => false⟩).1, true)
    ∧ exit_code ⟨2024, 1, 5, 0, 0, 0, 0⟩
        [⟨Scheme.daily, 0, 1,
          [⟨"2024-01-01 00:00".toList, ⟨2024, 1, 1, 0, 0, 0, 0⟩⟩],
          true, fun _ => false⟩,
         ⟨Scheme.daily, 0, 7, [], false, fun _ => false⟩] = 1 := by
  refine ⟨rfl, ?_, ?_⟩
  · exact (C3_amended.1 ⟨2024, 1, 5, 0, 0, 0, 0⟩
      ⟨Scheme.daily, 0, 1,
        [⟨"2024-01-01 00:00".toList, ⟨2024, 1, 1, 0, 0, 0, 0⟩⟩],
        true, fun _ => false⟩
      [⟨Scheme.daily, 0, 7, [], false, fun _ => false⟩] rfl).1
  · exact (C3_amended.1 ⟨2024, 1, 5, 0, 0, 0, 0⟩
      ⟨Scheme.daily, 0, 1,
        [⟨"2024-01-01 00:00".toList, ⟨2024, 1, 1, 0, 0, 0, 0⟩⟩],
        true, fun _ => false⟩
      [⟨Scheme.daily, 0, 7, [], false, fun _ => false⟩] rfl).2

/-- C4.  Idempotence of the evaluator: if a run creates a snapshot (its
name is the minute-precision serialization of `now`), then a second run
with the same `now`, offset and scheme against a catalog containing that
snapshot — with its timestamp re-parsed from the stored name, which
truncated `now` to minute precision — decides "no creation". -/
theorem C4_idempotence :
    ∀ (sch : Scheme) (off amt amt2 : ℤ) (now : DateTime)
      (snaps snaps2 : List Snapshot) (name : List Char) (w : DateTime),
    ValidDT now →
    (do_section sch off amt now snaps).creates = some name →
    fromisoformat name = some w →
    (⟨name, w⟩ : Snapshot) ∈ snaps2 →
    (do_section sch off amt2 now snaps2).creates = none := by
  intro sch off amt amt2 now snaps snaps2 name w hval hc hp hm
  rw [do_section_creates] at hc
  by_cases h : coverage sch off now snaps = true
  · rw [if_pos h] at hc
    cases hc
  · rw [if_neg h] at hc
    have hname : name = format_time now := (Option.some_injective _ hc).symm
    subst hname
    rw [fromisoformat_format_time hval] at hp
    have hw : w = truncMin now := (Option.some_injective _ hp).symm
    subst hw
    have hcov : coverage sch off now snaps2 = true := by
      rw [coverage_iff]
      refine ⟨⟨format_time now, truncMin now⟩, hm, ?_⟩
      exact bucketKey_congr sch (sameDate_addDays ⟨rfl, rfl, rfl⟩ off)
    rw [do_section_creates, if_pos hcov]

/-- Witness for C4: a first run at `now = 2024-01-05 09:30:07.123456`
creates `2024-01-05 09:30`; the second run against a catalog holding the
re-parsed snapshot (seconds and microseconds truncated away) creates
nothing. -/
theorem C4_idempotence_witness :
    ValidDT ⟨2024, 1, 5, 9, 30, 7, 123456⟩
    ∧ (do_section Scheme.daily 0 7 ⟨2024, 1, 5, 9, 30, 7, 123456⟩ []).creates =
        some ("2024-01-05 09:30".toList)
    ∧ fromisoformat ("2024-01-05 09:30".toList) = some ⟨2024, 1, 5, 9, 30, 0, 0⟩
    ∧ (⟨"2024-01-05 09:30".toList, ⟨2024, 1, 5, 9, 30, 0, 0⟩⟩ : Snapshot) ∈
        [(⟨"2024-01-05 09:30".toList, ⟨2024, 1, 5, 9, 30, 0, 0⟩⟩ : Snapshot)]
    ∧ (do_section Scheme.daily 0 7 ⟨2024, 1, 5, 9, 30, 7, 123456⟩
        [⟨"2024-01-05 09:30".toList, ⟨2024, 1, 5, 9, 30, 0, 0⟩⟩]).creates = none := by
  refine ⟨by decide, by decide, by decide, by decide, ?_⟩
  exact C4_idempotence Scheme.daily 0 7 7 ⟨2024, 1, 5, 9, 30, 7, 123456⟩ []
    [⟨"2024-01-05 09:30".toList, ⟨2024, 1, 5, 9, 30, 0, 0⟩⟩]
    ("2024-01-05 09:30".toList) ⟨2024, 1, 5, 9, 30, 0, 0⟩
    (by decide) (by decide) (by decide) (by decide)

/-- C5, counterexample.  The claim says December 31 and the following
January 1 get different bucket keys under every named scheme, including
`weekly` — but ISO weeks straddle year boundaries: 2024-12-31 and
2025-01-01 both lie in ISO week (2025, 1), so their weekly keys are
equal. -/
theorem C5_counterexample :
    bucketKey Scheme.weekly ⟨2024, 12, 31, 0, 0, 0, 0⟩ =
      bucketKey Scheme.weekly ⟨2025, 1, 1, 0, 0, 0, 0⟩
    ∧ bucketKey Scheme.weekly ⟨2024, 12, 31, 0, 0, 0, 0⟩ = [2025, 1] := by
  exact ⟨by decide, by decide⟩

/-- C5, amended.  Timestamps in the same calendar day share the `daily`
bucket key; a December 31 and the following January 1 get different keys
under `daily`, `monthly`, `biyearly` and `yearly`.  Under `weekly` the
keys may coincide (December 31 and the next January 1 often share an ISO
week, e.g. 2024-12-31 and 2025-01-01 both map to (2025, 1)); a custom
scheme may also keep them together, as the claim itself already
excepted. -/
theorem C5_amended :
    (∀ t1 t2 : DateTime, sameDate t1 t2 →
      bucketKey Scheme.daily t1 = bucketKey Scheme.daily t2)
    ∧ (∀ t1 t2 : DateTime, t1.month = 12 → t1.day = 31 →
        t2.year = t1.year + 1 → t2.month = 1 → t2.day = 1 →
        bucketKey Scheme.daily t1 ≠ bucketKey Scheme.daily t2
        ∧ bucketKey Scheme.monthly t1 ≠ bucketKey Scheme.monthly t2
        ∧ bucketKey Scheme.biyearly t1 ≠ bucketKey Scheme.biyearly t2
        ∧ bucketKey Scheme.yearly t1 ≠ bucketKey Scheme.yearly t2) := by
  constructor
  · intro t1 t2 h
    exact bucketKey_congr Scheme.daily h
  · intro t1 t2 h1 h2 h3 h4 h5
    refine ⟨?_, ?_, ?_, ?_⟩ <;> simp [bucketKey, h1, h2, h3, h4, h5]

/-- Witness for C5's amended statement at 2023-12-31 / 2024-01-01. -/
theorem C5_amended_witness :
    sameDate ⟨2023, 12, 31, 8, 0, 0, 0⟩ ⟨2023, 12, 31, 21, 45, 3, 9⟩
    ∧ bucketKey Scheme.daily ⟨2023, 12, 31, 8, 0, 0, 0⟩ =
        bucketKey Scheme.daily ⟨2023, 12, 31, 21, 45, 3, 9⟩
    ∧ bucketKey Scheme.monthly ⟨2023, 12, 31, 8, 0, 0, 0⟩ ≠
        bucketKey Scheme.monthly ⟨2024, 1, 1, 0, 0, 0, 0⟩ := by
  refine ⟨by decide, ?_, ?_⟩
  · exact C5_amended.1 ⟨2023, 12, 31, 8, 0, 0, 0⟩ ⟨2023, 12, 31, 21, 45, 3, 9⟩
      (by decide)
  · exact (C5_amended.2 ⟨2023, 12, 31, 8, 0, 0, 0⟩ ⟨2024, 1, 1, 0, 0, 0, 0⟩
      rfl rfl rfl rfl rfl).2.1

/-- C6.  Section invalidation: missing keys fall back to the defaults
`copy`, `daily`, `7`, `0d`; an unknown method, a malformed interval or
offset, and a non-positive integer amount each invalidate the whole
section (`Except.ok none`: skipped with a diagnostic, never partially
applied, run continues).  However, a non-integer `amount` does not skip
the section: `section.getint` raises `ValueError` (the fallback applies
only to missing keys) and nothing catches it, so the whole run aborts —
the final conjunct exhibits this divergence from the claim. -/
theorem C6_section_invalidation :
    read_section_options ⟨none, none, none, none⟩ =
        Except.ok (some ⟨MethodKind.copy, Scheme.daily, 0, 7⟩)
    ∧ read_section_options ⟨some ("rsync".toList), none, none, none⟩ = Except.ok none
    ∧ read_section_options ⟨none, some ("fortnightly".toList), none, none⟩ = Except.ok none
    ∧ read_section_options ⟨none, some ("0d".toList), none, none⟩ = Except.ok none
    ∧ read_section_options ⟨none, none, some ("5".toList), none⟩ = Except.ok none
    ∧ read_section_options ⟨none, none, none, some ("0".toList)⟩ = Except.ok none
    ∧ read_section_options ⟨none, none, none, some ("-3".toList)⟩ = Except.ok none
    ∧ read_section_options
        ⟨some ("btrfs".toList), some ("30d".toList), some ("-3d".toList), some ("4".toList)⟩ =
        Except.ok (some ⟨MethodKind.btrfs, Scheme.custom 30, -3, 4⟩)
    ∧ read_section_options ⟨none, none, none, some ("abc".toList)⟩ =
        Except.error PyExc.valueError := by
  exact ⟨rfl, rfl, rfl, rfl, rfl, rfl, rfl, rfl, rfl⟩

/-- Dropping a prefix twice is the same as dropping it once. -/
lemma dropWhile_dropWhile (p : Char → Bool) (l : List Char) :
    (l.dropWhile p).dropWhile p = l.dropWhile p := by
  induction l with
  | nil => rfl
  | cons a as ih =>
      rw [List.dropWhile_cons]
      by_cases hp : p a = true
      · rw [if_pos hp]
        exact ih
      · rw [if_neg hp, List.dropWhile_cons, if_neg hp]

/-- The first survivor of `dropWhile` fails the predicate. -/
lemma head?_dropWhile_false (p : Char → Bool) (l : List Char) :
    ∀ c, (l.dropWhile p).head? = some c → p c = false := by
  induction l with
  | nil => intro c h; cases h
  | cons a as ih =>
      intro c h
      rw [List.dropWhile_cons] at h
      by_cases hp : p a = true
      · rw [if_pos hp] at h
        exact ih c h
      · rw [if_neg hp] at h
        cases h
        exact Bool.not_eq_true _ |>.mp hp

/-- If `dropWhile` leaves anything, the last element is unchanged. -/
lemma getLast?_dropWhile_or (p : Char → Bool) (l : List Char) :
    l.dropWhile p = [] ∨ (l.dropWhile p).getLast? = l.getLast? := by
  induction l with
  | nil => exact Or.inl rfl
  | cons a as ih =>
      rw [List.dropWhile_cons]
      by_cases hp : p a = true
      · rw [if_pos hp]
        by_cases hnil : as.dropWhile p = []
        · exact Or.inl hnil
        · rcases ih with h | h
          · exact Or.inl h
          · right
            rw [h]
            cases as with
            | nil => exact absurd rfl hnil
            | cons b bs => rw [List.getLast?_cons_cons]
      · rw [if_neg hp]
        exact Or.inr rfl

/-- A `dropWhile` whose input starts with a failing element is the
identity. -/
lemma dropWhile_of_head_false (p : Char → Bool) (l : List Char)
    (h : ∀ c, l.head? = some c → p c = false) : l.dropWhile p = l := by
  cases l with
  | nil => rfl
  | cons a as =>
      rw [List.dropWhile_cons, if_neg]
      rw [h a rfl]
      exact Bool.false_ne_true

/-- Python's `strip` is idempotent. -/
lemma stripWs_idem (s : List Char) : stripWs (stripWs s) = stripWs s := by
  unfold stripWs
  set p := isSpaceChar with hp
  set y := (((s.dropWhile p).reverse.dropWhile p) : List Char) with hy
  rcases getLast?_dropWhile_or p (s.dropWhile p).reverse with hnil | hlast
  · rw [← hy] at hnil
    rw [hnil]
    rfl
  · rw [← hy] at hlast
    have h1 : y.reverse.dropWhile p = y.reverse := by
      apply dropWhile_of_head_false
      intro c hc
      rw [List.head?_reverse, hlast, List.getLast?_reverse] at hc
      exact head?_dropWhile_false p s c hc
    have h2 : y.dropWhile p = y := by
      apply dropWhile_of_head_false
      intro c hc
      rw [hy] at hc
      exact head?_dropWhile_false p (s.dropWhile p).reverse c hc
    rw [h1, List.reverse_reverse, h2]

/-- C7, counterexample.  The claim says every string that is neither one
of the five scheme names nor of the form `<positive integer>d` is
invalid; but `"30 d"` — a space between the integer and the `d` — is
accepted, because `days_from_string` slices off the final `d` and
Python's `int()` ignores surrounding whitespace. -/
theorem C7_counterexample :
    claimedSchemeForm ("30 d".toList) = false
    ∧ interval_from_string ("30 d".toList) = some (Scheme.custom 30) := by
  exact ⟨by decide, by decide⟩

/-- C7, amended.  `resolve_scheme` recognizes exactly: the five names
(case-sensitively, after stripping surrounding whitespace), plus strings
whose stripped form ends in `d` with the part before that final `d`
accepted by Python's `int()` as a positive integer — which tolerates
surrounding whitespace, a leading sign and single underscores between
digits, so `"30 d"`, `"+30d"` and `"3_0d"` are also valid.  `"0d"` and
`"-5d"` are invalid; `"30d"` resolves to the 30-day scheme, stably
across repeated calls; all other strings are invalid. -/
theorem C7_amended :
    (∀ s : List Char, (interval_from_string s).isSome = amendedAccept s)
    ∧ interval_from_string ("daily".toList) = some Scheme.daily
    ∧ interval_from_string ("weekly".toList) = some Scheme.weekly
    ∧ interval_from_string ("monthly".toList) = some Scheme.monthly
    ∧ interval_from_string ("biyearly".toList) = some Scheme.biyearly
    ∧ interval_from_string ("yearly".toList) = some Scheme.yearly
    ∧ interval_from_string ("Daily".toList) = none
    ∧ interval_from_string ("DAILY".toList) = none
    ∧ interval_from_string ("0d".toList) = none
    ∧ interval_from_string ("-5d".toList) = none
    ∧ interval_from_string ("30d".toList) = some (Scheme.custom 30)
    ∧ interval_from_string ("+30d".toList) = some (Scheme.custom 30)
    ∧ interval_from_string ("3_0d".toList) = some (Scheme.custom 30)
    ∧ interval_from_string ("30d".toList) = interval_from_string ("30d".toList) := by
  refine ⟨?_, by decide, by decide, by decide, by decide, by decide, by decide,
    by decide, by decide, by decide, by decide, by decide, by decide, rfl⟩
  intro s
  simp only [interval_from_string, amendedAccept, days_from_string, stripWs_idem]
  by_cases h1 : stripWs s = "daily".toList
  · simp [h1]
  rw [if_neg h1]
  by_cases h2 : stripWs s = "weekly".toList
  · simp [h1, h2]
  rw [if_neg h2]
  by_cases h3 : stripWs s = "monthly".toList
  · simp [h1, h2, h3]
  rw [if_neg h3]
  by_cases h4 : stripWs s = "biyearly".toList
  · simp [h1, h2, h3, h4]
  rw [if_neg h4]
  by_cases h5 : stripWs s = "yearly".toList
  · simp [h1, h2, h3, h4, h5]
  rw [if_neg h5]
  simp only [h1, h2, h3, h4, h5, decide_eq_true_eq, decide_eq_false_iff_not,
    Bool.false_or, decide_eq_false h1, decide_eq_false h2, decide_eq_false h3,
    decide_eq_false h4, decide_eq_false h5]
  by_cases h6 : (stripWs s).getLast? = some 'd'
  · rw [if_pos h6, if_pos h6]
    rcases h7 : pyInt (stripWs s).dropLast with _ | n
    · rfl
    · by_cases h8 : 0 < n
      · simp [h8]
      · simp [h8]
  · rw [if_neg h6, if_neg h6]
    rfl

/-- C8.  The custom `<n>d` bucket key of a timestamp is the floor of
`J / n`, where `J` is the Julian day number of the timestamp's date —
the day count of `date − 0001-01-01` plus 1721426 — and proleptic
Gregorian day 1 (0001-01-01) has Julian day number 1721426. -/
theorem C8_custom_key :
    (∀ (n : ℤ) (dt : DateTime), 0 < n →
      bucketKey (Scheme.custom n) dt = [Int.fdiv (specJulianDay dt) n])
    ∧ julian_day ⟨1, 1, 1, 0, 0, 0, 0⟩ = 1721426 := by
  constructor
  · intro n dt hn
    have h1 : ymd2ord 1 1 1 = 1 := by decide
    simp only [bucketKey, julian_day, specJulianDay, h1]
  · decide

/-- Witness for C8 at `n = 30` and a concrete timestamp. -/
theorem C8_custom_key_witness :
    (0 : ℤ) < 30
    ∧ bucketKey (Scheme.custom 30) ⟨2024, 3, 27, 10, 0, 0, 0⟩ =
        [Int.fdiv (specJulianDay ⟨2024, 3, 27, 10, 0, 0, 0⟩) 30] := by
  exact ⟨by decide, C8_custom_key.1 30 ⟨2024, 3, 27, 10, 0, 0, 0⟩ (by decide)⟩

/-- C9.  Snapshot catalog: a non-existent directory yields the empty
sequence; otherwise the result is sorted ascending by timestamp and is a
permutation of exactly the parsed entries (non-directories and
unparseable names are skipped, and entries with identical timestamps are
all retained); repeated identical calls return the identical list.  The
closing concrete case shows two same-timestamp entries both retained, in
input order, with an unparseable name and a non-directory skipped. -/
theorem C9_catalog :
    (∀ entries : List DirEntry, find_snapshots false entries = [])
    ∧ (∀ entries : List DirEntry, List.Sorted snapLe (find_snapshots true entries))
    ∧ (∀ entries : List DirEntry,
        List.Perm (find_snapshots true entries) (entries.filterMap parse_entry))
    ∧ (∀ (ex : Bool) (entries : List DirEntry),
        find_snapshots ex entries = find_snapshots ex entries)
    ∧ find_snapshots true
        [⟨"2024-01-01".toList, true⟩, ⟨"2024-01-01 00:00".toList, true⟩,
         ⟨"junk".toList, true⟩, ⟨"2024-01-02".toList, false⟩] =
        [⟨"2024-01-01".toList, ⟨2024, 1, 1, 0, 0, 0, 0⟩⟩,
         ⟨"2024-01-01 00:00".toList, ⟨2024, 1, 1, 0, 0, 0, 0⟩⟩] := by
  refine ⟨fun entries => rfl, fun entries => ?_, fun entries => ?_,
    fun ex entries => rfl, by decide⟩
  · show List.Sorted snapLe (List.insertionSort snapLe (entries.filterMap parse_entry))
    exact List.sorted_insertionSort snapLe (entries.filterMap parse_entry)
  · show List.Perm (List.insertionSort snapLe (entries.filterMap parse_entry)) _
    exact List.perm_insertionSort snapLe (entries.filterMap parse_entry)

/-- C10.  Date-only dependence: under every scheme, two timestamps with
the same calendar date have equal bucket keys; consequently the coverage
decision depends only on the calendar dates of `now` and of the stored
snapshots, never on hours, minutes, seconds or microseconds. -/
theorem C10_date_only :
    (∀ (sch : Scheme) (a b : DateTime), sameDate a b →
      bucketKey sch a = bucketKey sch b)
    ∧ (∀ (sch : Scheme) (off : ℤ) (now now' : DateTime)
        (snaps snaps' : List Snapshot),
        sameDate now now' →
        List.Forall₂ (fun s s' => sameDate s.when s'.when) snaps snaps' →
        coverage sch off now snaps = coverage sch off now' snaps') := by
  exact ⟨fun sch a b h => bucketKey_congr sch h,
    fun sch off now now' snaps snaps' hn hs => coverage_congr sch off hn hs⟩

/-- Witness for C10: same calendar day, different times of day, equal
weekly keys and equal coverage answers. -/
theorem C10_date_only_witness :
    sameDate ⟨2024, 1, 5, 9, 30, 0, 0⟩ ⟨2024, 1, 5, 23, 59, 59, 999999⟩
    ∧ bucketKey Scheme.weekly ⟨2024, 1, 5, 9, 30, 0, 0⟩ =
        bucketKey Scheme.weekly ⟨2024, 1, 5, 23, 59, 59, 999999⟩
    ∧ coverage Scheme.daily 3 ⟨2024, 1, 5, 9, 30, 0, 0⟩
        [⟨"x".toList, ⟨2024, 1, 5, 0, 0, 0, 0⟩⟩] =
      coverage Scheme.daily 3 ⟨2024, 1, 5, 23, 59, 59, 999999⟩
        [⟨"x".toList, ⟨2024, 1, 5, 18, 0, 0, 0⟩⟩] := by
  refine ⟨by decide, ?_, ?_⟩
  · exact C10_date_only.1 Scheme.weekly ⟨2024, 1, 5, 9, 30, 0, 0⟩
      ⟨2024, 1, 5, 23, 59, 59, 999999⟩ (by decide)
  · exact C10_date_only.2 Scheme.daily 3 ⟨2024, 1, 5, 9, 30, 0, 0⟩
      ⟨2024, 1, 5, 23, 59, 59, 999999⟩
      [⟨"x".toList, ⟨2024, 1, 5, 0, 0, 0, 0⟩⟩]
      [⟨"x".toList, ⟨2024, 1, 5, 18, 0, 0, 0⟩⟩]
      (by decide) (List.Forall₂.cons (by decide) List.Forall₂.nil)

end Rotate
